import Mathlib

/-!
Verification development for `cpu_stress.py`, a Linux CPU stress tool.
The Python source is shallowly embedded: file system states become inductive
types, Python floats become rationals, exceptions become `Except Unit`.
-/

namespace CpuStress

/-! ## Temperature sampler (`CPUMonitor.get_temp`)

The sensor file `/sys/class/thermal/thermal_zone0/temp` is modelled by its
state: absent, unreadable (exists but `open` raises), or present with content
whose parse as a Python `int` either succeeds with value `raw` or fails
(`int(...)` raises `ValueError`). -/

inductive TempFile where
  | absent : TempFile
  | unreadable : TempFile
  | present (raw : Option ℤ) : TempFile
deriving DecidableEq

/-- `CPUMonitor.get_temp`: if the path exists, `int(f.read().strip()) / 1000.0`
(uncaught exceptions propagate as `.error`); otherwise return `0`. -/
def get_temp : TempFile → Except Unit ℚ
  | .absent => .ok 0
  | .unreadable => .error ()
  | .present (some raw) => .ok ((raw : ℚ) / 1000)
  | .present none => .error ()

/-! ## Utilization sampler (`CPUMonitor.get_util`)

`/proc/stat`'s first line is read twice (before and after a 100 ms sleep);
each read is a list of tokens, a token being `some q` when `float(token)`
parses to `q` and `none` when it raises. The whole body sits in a
`try/except` that turns any failure into `0`. -/

inductive StatRead where
  | absent : StatRead
  | unreadable : StatRead
  | lines (a b : List (Option ℚ)) : StatRead

/-- Python `b[4]` followed by `float(...)`: out-of-range indexing or an
unparsable token is a failure (`none`). -/
def pyIndex (l : List (Option ℚ)) (i : ℕ) : Option ℚ :=
  (l.get? i).join

/-- Python slice `b[1:8]`: tokens 1 through 7, silently shorter if the line
has fewer tokens. -/
def slice18 (l : List (Option ℚ)) : List (Option ℚ) :=
  (l.drop 1).take 7

/-- `sum(map(float, slice))`: fails iff some token in the slice fails to
parse. -/
def sumParsed (l : List (Option ℚ)) : Option ℚ :=
  l.foldr (fun x acc => do pure ((← x) + (← acc))) (some 0)

/-- The arithmetic body of `get_util` on two successfully opened reads. -/
def get_util_body (a b : List (Option ℚ)) : Option ℚ := do
  let bi ← pyIndex b 4
  let ai ← pyIndex a 4
  let sb ← sumParsed (slice18 b)
  let sa ← sumParsed (slice18 a)
  let idle := bi - ai
  let total := sb - sa
  pure (if total > 0 then 100 * (1 - idle / total) else 0)

/-- The `try` block of `get_util`: any I/O or parse failure is an error. -/
def get_util_try : StatRead → Except Unit ℚ
  | .absent => .error ()
  | .unreadable => .error ()
  | .lines a b =>
      match get_util_body a b with
      | some v => .ok v
      | none => .error ()

/-- `CPUMonitor.get_util`: the `except Exception: return 0` wrapper. -/
def get_util (s : StatRead) : ℚ :=
  match get_util_try s with
  | .ok v => v
  | .error _ => 0

/-! ## Canonical well-formed `/proc/stat` snapshots

A snapshot whose first seven numeric fields (user nice system idle iowait
irq softirq) all parse; used to state properties of `get_util` over real
counter lines. Extra trailing fields (steal, guest, ...) are arbitrary. -/

structure CpuTimes where
  user : ℚ
  nice : ℚ
  system : ℚ
  idle : ℚ
  iowait : ℚ
  irq : ℚ
  softirq : ℚ

/-- Token list of a well-formed counter line: the leading "cpu" label (never
parsed as a number, hence `none`), the seven canonical fields, then any
trailing tokens. -/
def toTokens (t : CpuTimes) (extra : List (Option ℚ)) : List (Option ℚ) :=
  none :: some t.user :: some t.nice :: some t.system :: some t.idle ::
    some t.iowait :: some t.irq :: some t.softirq :: extra

/-- Modelled from the spec: total CPU time of a snapshot, the sum of the
seven canonical fields. -/
def specTotal (t : CpuTimes) : ℚ :=
  t.user + t.nice + t.system + t.idle + t.iowait + t.irq + t.softirq

/-- Modelled from the spec (section 4.2): utilization from two snapshots,
`100 * (1 - idle_delta/total_delta)` when `total_delta > 0`, else 0. -/
def spec_util (t0 t1 : CpuTimes) : ℚ :=
  if specTotal t1 - specTotal t0 > 0 then
    100 * (1 - (t1.idle - t0.idle) / (specTotal t1 - specTotal t0))
  else 0

lemma sumParsed_toTokens (t : CpuTimes) (extra : List (Option ℚ)) :
    sumParsed (slice18 (toTokens t extra)) =
      some (t.user + (t.nice + (t.system + (t.idle + (t.iowait + (t.irq + (t.softirq + 0))))))) :=
  rfl

lemma get_util_toTokens (t0 t1 : CpuTimes) (e0 e1 : List (Option ℚ)) :
    get_util (.lines (toTokens t0 e0) (toTokens t1 e1)) = spec_util t0 t1 := by
  have hb : get_util_body (toTokens t0 e0) (toTokens t1 e1) =
      some (if (t1.user + (t1.nice + (t1.system + (t1.idle + (t1.iowait + (t1.irq + (t1.softirq + 0)))))))
              - (t0.user + (t0.nice + (t0.system + (t0.idle + (t0.iowait + (t0.irq + (t0.softirq + 0))))))) > 0
            then 100 * (1 - (t1.idle - t0.idle) /
              ((t1.user + (t1.nice + (t1.system + (t1.idle + (t1.iowait + (t1.irq + (t1.softirq + 0)))))))
                - (t0.user + (t0.nice + (t0.system + (t0.idle + (t0.iowait + (t0.irq + (t0.softirq + 0)))))))))
            else 0) := rfl
  have hsum1 : (t1.user + (t1.nice + (t1.system + (t1.idle + (t1.iowait + (t1.irq + (t1.softirq + 0)))))))
      = specTotal t1 := by unfold specTotal; ring
  have hsum0 : (t0.user + (t0.nice + (t0.system + (t0.idle + (t0.iowait + (t0.irq + (t0.softirq + 0)))))))
      = specTotal t0 := by unfold specTotal; ring
  have hw : get_util (.lines (toTokens t0 e0) (toTokens t1 e1)) =
      (match get_util_body (toTokens t0 e0) (toTokens t1 e1) with
       | some v => v
       | none => 0) := rfl
  rw [hw, hb]
  show (if _ > 0 then _ else 0 : ℚ) = spec_util t0 t1
  rw [hsum1, hsum0]
  rfl

/-! ## Monitor sampling loop and stop (`CPUMonitor.loop`, `CPUMonitor.stop`)

The loop alternates `get_temp`/`get_util` and appends each sample to its
series only when strictly positive. We embed one pass over the sequence of
(temperature, utilization) sample values produced while the loop ran. -/

structure MonitorData where
  temps : List ℚ
  utils : List ℚ
deriving DecidableEq

/-- One iteration of `CPUMonitor.loop`: `if t > 0: temps.append(t)`,
`if u > 0: utils.append(u)`. -/
def loopStep (d : MonitorData) (tu : ℚ × ℚ) : MonitorData :=
  { temps := if tu.1 > 0 then d.temps ++ [tu.1] else d.temps
    utils := if tu.2 > 0 then d.utils ++ [tu.2] else d.utils }

/-- `CPUMonitor.loop` over the finite sequence of samples observed before
the duration elapsed or `stop()` was called. -/
def monitorLoop (samples : List (ℚ × ℚ)) : MonitorData :=
  samples.foldl loopStep ⟨[], []⟩

structure TelemetrySummary where
  avg_temp : ℚ
  max_temp : ℚ
  min_temp : ℚ
  avg_util : ℚ
deriving DecidableEq

/-- Python `max(list)`; the `[]` case never arises because `stop` guards on
emptiness first. -/
def pyMax : List ℚ → ℚ
  | [] => 0
  | h :: t => t.foldl max h

/-- Python `min(list)`; same guard remark as `pyMax`. -/
def pyMin : List ℚ → ℚ
  | [] => 0
  | h :: t => t.foldl min h

/-- `CPUMonitor.stop`: each summary field is computed only if its series is
non-empty (Python truthiness), else `0`. -/
def stop (temps utils : List ℚ) : TelemetrySummary :=
  { avg_temp := if temps = [] then 0 else temps.sum / temps.length
    max_temp := if temps = [] then 0 else pyMax temps
    min_temp := if temps = [] then 0 else pyMin temps
    avg_util := if utils = [] then 0 else utils.sum / utils.length }

/-! ## Host probe (`SystemInfo.get_cpu_info`)

`/proc/cpuinfo` is modelled as `none` (absent) or a list of lines, each a
list of characters. `multiprocessing.cpu_count()` is a parameter. -/

/-- Python substring test `pat in l`. -/
def containsSub (pat l : List Char) : Bool :=
  (List.range (l.length + 1)).any fun i => pat.isPrefixOf (l.drop i)

/-- Python `line.split(sep, 1)`: the part before the first separator, and
`some rest` when a separator occurs (`rest` unsplit), else `none`
(indexing `[1]` then raises `IndexError`). -/
def pySplit1 (sep : Char) : List Char → List Char × Option (List Char)
  | [] => ([], none)
  | c :: rest =>
      if c = sep then ([], some rest)
      else
        let r := pySplit1 sep rest
        (c :: r.1, r.2)

/-- Python `s.strip()`. -/
def pyStrip (l : List Char) : List Char :=
  ((l.dropWhile Char.isWhitespace).reverse.dropWhile Char.isWhitespace).reverse

def mnChars : List Char := "model name".toList
def vidChars : List Char := "vendor_id".toList
def unknownChars : List Char := "Unknown".toList

/-- First loop of `get_cpu_info`: scan for a line containing "model name";
on a hit, `line.split(':', 1)[1].strip()` — `IndexError` when the line has
no colon. -/
def findModel : List (List Char) → Except Unit (Option (List Char))
  | [] => .ok none
  | line :: rest =>
      if containsSub mnChars line then
        match (pySplit1 ':' line).2 with
        | some after => .ok (some (pyStrip after))
        | none => .error ()
      else findModel rest

/-- Second loop of `get_cpu_info`: scan for a "vendor_id" line. -/
def findVendor : List (List Char) → Except Unit (Option (List Char))
  | [] => .ok none
  | line :: rest =>
      if containsSub vidChars line then
        match (pySplit1 ':' line).2 with
        | some after => .ok (some (pyStrip after))
        | none => .error ()
      else findVendor rest

/-- The Intel/AMD classification applied to a found vendor string. -/
def archFromVendor (vendor : List Char) : List Char :=
  if containsSub "Intel".toList vendor then "x86_64 (Intel)".toList
  else if containsSub "AMD".toList vendor then "x86_64 (AMD)".toList
  else vendor

structure CpuInfo where
  cores : ℕ
  model : List Char
  arch : List Char
deriving DecidableEq

/-- `SystemInfo.get_cpu_info`: defaults `cores = cpu_count()`, `model =
"Unknown"`, `arch = "Unknown"`, each overwritten when the corresponding
`/proc/cpuinfo` line is found; an `IndexError` in either scan propagates. -/
def get_cpu_info (file : Option (List (List Char))) (cpuCount : ℕ) :
    Except Unit CpuInfo :=
  match file with
  | none => .ok ⟨cpuCount, unknownChars, unknownChars⟩
  | some ls =>
      match findModel ls with
      | .error e => .error e
      | .ok m =>
          match findVendor ls with
          | .error e => .error e
          | .ok v =>
              .ok ⟨cpuCount, m.getD unknownChars,
                   (v.map archFromVendor).getD unknownChars⟩

/-! ## Load worker (`_stress_worker`)

`time.time()` is modelled as an abstract clock: the `n`-th call returns
`clock n`. The worker makes one clock call to fix `end`, one per outer
`while` check, one to fix `s`, and one per inner `while` check; `ops`
increases by exactly 200 per passing inner check (the `for i in range(200)`
body). `fuel` bounds the number of loop iterations we observe; the real
termination argument is the clock's progress, outside the embedding. -/

/-- Inner busy loop `while time.time() - s < work`: each passing check runs
the `for i in range(200)` body, adding exactly 200 to `ops`. Returns the
ops added and the next clock-call index. -/
def innerLoop (clock : ℕ → ℚ) (s work : ℚ) : ℕ → ℕ → ℕ × ℕ
  | 0, i => (0, i)
  | Nat.succ fuel, i =>
      if clock i - s < work then
        ((innerLoop clock s work fuel (i + 1)).1 + 200,
         (innerLoop clock s work fuel (i + 1)).2)
      else (0, i)

/-- Outer loop `while time.time() < end`: fixes `s = time.time()`, runs the
inner busy loop, then (sleep — no clock call) repeats. -/
def outerLoop (clock : ℕ → ℚ) (endT work : ℚ) : ℕ → ℕ → ℕ
  | 0, _ => 0
  | Nat.succ fuel, i =>
      if clock i < endT then
        (innerLoop clock (clock (i + 1)) work fuel (i + 2)).1 +
          outerLoop clock endT work fuel
            (innerLoop clock (clock (i + 1)) work fuel (i + 2)).2
      else 0

/-- `_stress_worker(duration, percent)`: `end = time.time() + duration`
(clock call 0), `work = percent / 100.0`; the sleep branch
(`(100 - percent) / 100.0`, slept only when positive) consumes no clock
call and changes no state we track. -/
def stressWorker (clock : ℕ → ℚ) (duration : ℚ) (percent : ℤ) (fuel : ℕ) : ℕ :=
  outerLoop clock (clock 0 + duration) ((percent : ℚ) / 100) fuel 1

/-! ## Orchestrator (`CPUStressTest.run`) and entry point (`main`)

`run` starts the monitor, launches `threads` workers, joins them, sums
`r.get()` over the async results, stops the monitor and reports. Worker
outcomes and wall-clock bounds are oracles (`workerOps`, `elapsed`). -/

structure RunReport where
  total_ops : ℕ
  elapsed : ℚ
  throughput : ℚ
  summary : TelemetrySummary

/-- `CPUStressTest.run`'s data flow: `ops = sum(r.get() for r in results)`
with one result per worker index, `ops / elapsed` as throughput, and the
monitor summary from `stop`. -/
def CPUStressTest_run (threads : ℕ) (workerOps : ℕ → ℕ)
    (temps utils : List ℚ) (elapsed : ℚ) : RunReport :=
  let results := (List.range threads).map workerOps
  { total_ops := results.sum
    elapsed := elapsed
    throughput := (results.sum : ℚ) / elapsed
    summary := stop temps utils }

/-- Observable side-effecting steps of a run, in order. `poolError` is the
`ValueError` `multiprocessing.Pool` raises for a process count below 1,
which aborts the run. -/
inductive Event where
  | monitorStart : Event
  | workersStart (threads : ℤ) : Event
  | monitorStop : Event
  | report : Event
  | poolError : Event
deriving DecidableEq

/-- Parsed command-line arguments (`argparse`): `--cpu`, `--duration`
(default 60), `--cpu-threads` (default `None`), `--cpu-percent`
(default 100). -/
structure Args where
  cpu : Bool
  duration : ℤ
  cpu_threads : Option ℤ
  cpu_percent : ℤ
deriving DecidableEq

/-- Python `args.cpu_threads or cpu_info['cores']`: `None` and `0` are
falsy. -/
def chooseThreads : Option ℤ → ℤ → ℤ
  | none, cores => cores
  | some t, cores => if t = 0 then cores else t

/-- The ordered side effects of `CPUStressTest.run`: the monitor always
starts first; then `multiprocessing.Pool(threads)` raises `ValueError`
when `threads < 1`, aborting the run, and otherwise the workers start,
the monitor is stopped and the report printed. `duration` and `percent`
are never inspected. -/
def run_events (threads : ℤ) : List Event :=
  .monitorStart ::
    (if 1 ≤ threads then [.workersStart threads, .monitorStop, .report]
     else [.poolError])

/-- `main`: print help and exit when `--cpu` is missing; otherwise probe the
host, pick the thread count and call `run`. No validation of `duration` or
`percent` occurs anywhere on the path. -/
def main_events (args : Args) (detectedCores : ℤ) : List Event :=
  if args.cpu then run_events (chooseThreads args.cpu_threads detectedCores)
  else []

/-! ## Theorems -/

/-- Claim C1 counterexample: with `--cpu --duration 0 --cpu-threads 4
--cpu-percent 150` the configuration is not rejected — `main` proceeds to
start the monitor and the worker pool, contradicting the claimed
rejection with no side effects. -/
theorem C1_counterexample :
    main_events ⟨true, 0, some 4, 150⟩ 8 =
      [.monitorStart, .workersStart 4, .monitorStop, .report] := rfl

/-- Claim C1 (amended): the program performs no validation of
`target_percent` or `duration_seconds` — for every argument vector with
`--cpu` set whose effective thread count is at least 1, the monitor and
the workers are started and the run completes, whatever the percent and
duration values; and when the effective thread count is below 1 the
monitor still starts before `multiprocessing.Pool` raises. -/
theorem C1_no_validation (args : Args) (cores : ℤ) (h : args.cpu = true) :
    (1 ≤ chooseThreads args.cpu_threads cores →
      main_events args cores =
        [.monitorStart, .workersStart (chooseThreads args.cpu_threads cores),
         .monitorStop, .report]) ∧
    (chooseThreads args.cpu_threads cores < 1 →
      main_events args cores = [.monitorStart, .poolError]) := by
  constructor
  · intro ht
    simp [main_events, run_events, h, ht]
  · intro ht
    simp [main_events, run_events, h, not_le.2 ht]

/-- Witness for C1: the amended theorem at the invalid configuration
`duration = 0`, `percent = 150`, thread count 4. -/
theorem C1_no_validation_witness :
    main_events ⟨true, 0, some 4, 150⟩ 8 =
      [.monitorStart, .workersStart 4, .monitorStop, .report] :=
  (C1_no_validation ⟨true, 0, some 4, 150⟩ 8 rfl).1 (by norm_num [chooseThreads])

/-- Claim C2 counterexample: a sampler-level failure does propagate — when
the sensor path exists but its content does not parse as an integer,
`get_temp` raises instead of returning the zero sentinel. -/
theorem C2_counterexample : get_temp (.present none) = .error () := rfl

/-- Claim C2 (amended): `get_util` swallows every failure into the zero
sentinel (its whole body is wrapped in `try/except`), and `get_temp`
returns the zero sentinel when the sensor path is absent; but a failure
on an existing sensor path (unreadable file or unparsable content)
propagates out of `get_temp`. -/
theorem C2_failure_policy (s : StatRead) (hs : get_util_try s = .error ()) :
    get_util s = 0 ∧ get_temp .absent = .ok 0 ∧
    get_temp .unreadable = .error () ∧ get_temp (.present none) = .error () := by
  refine ⟨?_, rfl, rfl, rfl⟩
  unfold get_util
  rw [hs]

/-- Witness for C2: the amended theorem at the absent counters file. -/
theorem C2_failure_policy_witness :
    get_util .absent = 0 ∧ get_temp .absent = .ok 0 ∧
    get_temp .unreadable = .error () ∧ get_temp (.present none) = .error () :=
  C2_failure_policy .absent rfl

/-- Claim C3: over two well-formed counter snapshots whose fields are
nondecreasing (as `/proc/stat` counters are), the utilization sample lies
in [0,100]; and it is 0 when the counters file is absent. -/
theorem C3_util_in_range (t0 t1 : CpuTimes) (e0 e1 : List (Option ℚ))
    (hu : t0.user ≤ t1.user) (hn : t0.nice ≤ t1.nice) (hy : t0.system ≤ t1.system)
    (hi : t0.idle ≤ t1.idle) (hw : t0.iowait ≤ t1.iowait) (hq : t0.irq ≤ t1.irq)
    (hf : t0.softirq ≤ t1.softirq) :
    (0 ≤ get_util (.lines (toTokens t0 e0) (toTokens t1 e1)) ∧
      get_util (.lines (toTokens t0 e0) (toTokens t1 e1)) ≤ 100) ∧
    get_util .absent = 0 := by
  refine ⟨?_, rfl⟩
  rw [get_util_toTokens]
  unfold spec_util
  by_cases hpos : specTotal t1 - specTotal t0 > 0
  · rw [if_pos hpos]
    have hidle0 : 0 ≤ t1.idle - t0.idle := by linarith
    have hidletot : t1.idle - t0.idle ≤ specTotal t1 - specTotal t0 := by
      unfold specTotal at hpos ⊢; linarith
    have h1 : (t1.idle - t0.idle) / (specTotal t1 - specTotal t0) ≤ 1 :=
      (div_le_one hpos).2 hidletot
    have h2 : 0 ≤ (t1.idle - t0.idle) / (specTotal t1 - specTotal t0) :=
      div_nonneg hidle0 (le_of_lt hpos)
    constructor <;> linarith
  · rw [if_neg hpos]
    norm_num

/-- Witness for C3: concrete monotone snapshots, all fields 0 at T0 and
user = idle = 1 at T1. -/
theorem C3_util_in_range_witness :
    (0 ≤ get_util (.lines (toTokens ⟨0, 0, 0, 0, 0, 0, 0⟩ [])
        (toTokens ⟨1, 0, 0, 1, 0, 0, 0⟩ [])) ∧
      get_util (.lines (toTokens ⟨0, 0, 0, 0, 0, 0, 0⟩ [])
        (toTokens ⟨1, 0, 0, 1, 0, 0, 0⟩ [])) ≤ 100) ∧
    get_util .absent = 0 :=
  C3_util_in_range ⟨0, 0, 0, 0, 0, 0, 0⟩ ⟨1, 0, 0, 1, 0, 0, 0⟩ [] []
    (by norm_num) (by norm_num) (by norm_num) (by norm_num)
    (by norm_num) (by norm_num) (by norm_num)

/-- Claim C4: on any two well-formed counter snapshots the sampler computes
exactly the specified formula — `idle_delta` from the idle fields,
`total_delta` from the sums of the seven canonical fields, and
`100 * (1 - idle_delta/total_delta)` when `total_delta > 0`, else 0. -/
theorem C4_util_formula (t0 t1 : CpuTimes) (e0 e1 : List (Option ℚ)) :
    get_util (.lines (toTokens t0 e0) (toTokens t1 e1)) = spec_util t0 t1 :=
  get_util_toTokens t0 t1 e0 e1

/-- Claim C5: `get_temp` returns the sentinel 0 when the sensor path does
not exist, and `raw/1000` when the path holds integer content `raw`
(45000 ↦ 45). -/
theorem C5_temp_conversion (raw : ℤ) :
    get_temp .absent = .ok 0 ∧
    get_temp (.present (some raw)) = .ok ((raw : ℚ) / 1000) ∧
    get_temp (.present (some 45000)) = .ok 45 := by
  refine ⟨rfl, rfl, ?_⟩
  show Except.ok ((45000 : ℚ) / 1000) = Except.ok 45
  norm_num

/-- Claim C7: `stop` on an empty temperature series yields zero `avg_temp`,
`max_temp`, `min_temp`, and on an empty utilization series zero
`avg_util` — the division/`max`/`min` branches are guarded, so no
division by zero occurs. -/
theorem C7_stop_empty (temps utils : List ℚ) :
    (temps = [] → (stop temps utils).avg_temp = 0 ∧
      (stop temps utils).max_temp = 0 ∧ (stop temps utils).min_temp = 0) ∧
    (utils = [] → (stop temps utils).avg_util = 0) := by
  constructor
  · intro h
    subst h
    exact ⟨rfl, rfl, rfl⟩
  · intro h
    subst h
    rfl

/-- Witness for C7: both series empty gives the all-zero summary. -/
theorem C7_stop_empty_witness :
    ((stop [] []).avg_temp = 0 ∧ (stop [] []).max_temp = 0 ∧
      (stop [] []).min_temp = 0) ∧ (stop [] []).avg_util = 0 :=
  ⟨(C7_stop_empty [] []).1 rfl, (C7_stop_empty [] []).2 rfl⟩

lemma monitorLoop_aux (samples : List (ℚ × ℚ)) (d : MonitorData)
    (ht : ∀ x ∈ d.temps, 0 < x) (hu : ∀ x ∈ d.utils, 0 < x) :
    (∀ x ∈ (samples.foldl loopStep d).temps, 0 < x) ∧
    (∀ x ∈ (samples.foldl loopStep d).utils, 0 < x) := by
  induction samples generalizing d with
  | nil => exact ⟨ht, hu⟩
  | cons tu rest ih =>
      refine ih (loopStep d tu) ?_ ?_
      · intro x hx
        unfold loopStep at hx
        by_cases h1 : tu.1 > 0
        · rw [if_pos h1] at hx
          rcases List.mem_append.1 hx with hx | hx
          · exact ht x hx
          · rw [List.mem_singleton.1 hx]; exact h1
        · rw [if_neg h1] at hx
          exact ht x hx
      · intro x hx
        unfold loopStep at hx
        by_cases h2 : tu.2 > 0
        · rw [if_pos h2] at hx
          rcases List.mem_append.1 hx with hx | hx
          · exact hu x hx
          · rw [List.mem_singleton.1 hx]; exact h2
        · rw [if_neg h2] at hx
          exact hu x hx

/-- Claim C8: invariant of the monitor's sampling loop — whatever finite
sequence of (temperature, utilization) samples the loop observes, every
value stored in either series is strictly positive; a zero sample is
never appended. -/
theorem C8_positive_invariant (samples : List (ℚ × ℚ)) (x : ℚ) :
    (x ∈ (monitorLoop samples).temps → 0 < x) ∧
    (x ∈ (monitorLoop samples).utils → 0 < x) := by
  have h := monitorLoop_aux samples ⟨[], []⟩
    (by intro y hy; cases hy) (by intro y hy; cases hy)
  exact ⟨fun hx => h.1 x hx, fun hx => h.2 x hx⟩

/-- Witness for C8: the sample (3, 50) is appended and is positive. -/
theorem C8_positive_invariant_witness : (0 : ℚ) < 3 :=
  (C8_positive_invariant [((3 : ℚ), (50 : ℚ))] 3).1 (by decide)

/-- Claim C9: the report's total operation count is exactly the sum of the
per-worker `operations_performed` values, and the reported throughput is
`total_ops / elapsed`. -/
theorem C9_total_ops (threads : ℕ) (workerOps : ℕ → ℕ)
    (temps utils : List ℚ) (elapsed : ℚ) :
    (CPUStressTest_run threads workerOps temps utils elapsed).total_ops =
      ∑ i in Finset.range threads, workerOps i ∧
    (CPUStressTest_run threads workerOps temps utils elapsed).throughput =
      ((CPUStressTest_run threads workerOps temps utils elapsed).total_ops : ℚ) /
        (CPUStressTest_run threads workerOps temps utils elapsed).elapsed := by
  constructor
  · show ((List.range threads).map workerOps).sum = _
    induction threads with
    | zero => rfl
    | succ k ih =>
        rw [List.range_succ, List.map_append, List.sum_append,
          Finset.sum_range_succ, ih]
        simp
  · rfl

lemma innerLoop_dvd (clock : ℕ → ℚ) (s work : ℚ) (fuel i : ℕ) :
    200 ∣ (innerLoop clock s work fuel i).1 := by
  induction fuel generalizing i with
  | zero => exact Dvd.intro 0 rfl
  | succ f ih =>
      unfold innerLoop
      by_cases h : clock i - s < work
      · rw [if_pos h]
        exact dvd_add (ih (i + 1)) (dvd_refl 200)
      · rw [if_neg h]
        exact Dvd.intro 0 rfl

lemma outerLoop_dvd (clock : ℕ → ℚ) (endT work : ℚ) (fuel i : ℕ) :
    200 ∣ outerLoop clock endT work fuel i := by
  induction fuel generalizing i with
  | zero => exact Dvd.intro 0 rfl
  | succ f ih =>
      unfold outerLoop
      by_cases h : clock i < endT
      · rw [if_pos h]
        exact dvd_add (innerLoop_dvd clock (clock (i + 1)) work f (i + 2)) (ih _)
      · rw [if_neg h]
        exact Dvd.intro 0 rfl

/-- Claim C10: for every clock, duration and percent, the worker's returned
operation count is a multiple of 200 (the busy loop's inner granularity);
and with `duration ≤ 0` and a monotone clock the outer `while` exits at
once, so the worker returns exactly 0. -/
theorem C10_worker_ops (clock : ℕ → ℚ) (duration : ℚ) (percent : ℤ) (fuel : ℕ) :
    200 ∣ stressWorker clock duration percent fuel ∧
    (duration ≤ 0 → clock 0 ≤ clock 1 →
      stressWorker clock duration percent fuel = 0) := by
  constructor
  · exact outerLoop_dvd clock (clock 0 + duration) ((percent : ℚ) / 100) fuel 1
  · intro hd hc
    unfold stressWorker
    cases fuel with
    | zero => rfl
    | succ f =>
        unfold outerLoop
        rw [if_neg (by push_neg; linarith)]

/-- Witness for C10: the constant-zero clock with duration 0 yields zero
operations. -/
theorem C10_worker_ops_witness :
    stressWorker (fun _ => (0 : ℚ)) 0 100 5 = 0 :=
  (C10_worker_ops (fun _ => (0 : ℚ)) 0 100 5).2 (le_refl 0) (le_refl 0)

lemma findModel_ok (ls : List (List Char))
    (h : ∀ line ∈ ls, containsSub mnChars line = true →
      ((pySplit1 ':' line).2).isSome = true) :
    ∃ m, findModel ls = .ok m := by
  induction ls with
  | nil => exact ⟨none, rfl⟩
  | cons line rest ih =>
      unfold findModel
      by_cases hc : containsSub mnChars line = true
      · rw [if_pos hc]
        have hsome := h line (List.mem_cons_self line rest) hc
        cases hafter : (pySplit1 ':' line).2 with
        | some a => exact ⟨some (pyStrip a), rfl⟩
        | none => rw [hafter] at hsome; cases hsome
      · rw [if_neg hc]
        exact ih fun l hl hcl => h l (List.mem_cons_of_mem line hl) hcl

lemma findModel_not_found (ls : List (List Char))
    (h : ∀ line ∈ ls, containsSub mnChars line = false) :
    findModel ls = .ok none := by
  induction ls with
  | nil => rfl
  | cons line rest ih =>
      unfold findModel
      rw [if_neg (by rw [h line (List.mem_cons_self line rest)]; exact Bool.false_ne_true)]
      exact ih fun l hl => h l (List.mem_cons_of_mem line hl)

lemma findVendor_ok (ls : List (List Char))
    (h : ∀ line ∈ ls, containsSub vidChars line = true →
      ((pySplit1 ':' line).2).isSome = true) :
    ∃ v, findVendor ls = .ok v := by
  induction ls with
  | nil => exact ⟨none, rfl⟩
  | cons line rest ih =>
      unfold findVendor
      by_cases hc : containsSub vidChars line = true
      · rw [if_pos hc]
        have hsome := h line (List.mem_cons_self line rest) hc
        cases hafter : (pySplit1 ':' line).2 with
        | some a => exact ⟨some (pyStrip a), rfl⟩
        | none => rw [hafter] at hsome; cases hsome
      · rw [if_neg hc]
        exact ih fun l hl hcl => h l (List.mem_cons_of_mem line hl) hcl

lemma findVendor_not_found (ls : List (List Char))
    (h : ∀ line ∈ ls, containsSub vidChars line = false) :
    findVendor ls = .ok none := by
  induction ls with
  | nil => rfl
  | cons line rest ih =>
      unfold findVendor
      rw [if_neg (by rw [h line (List.mem_cons_self line rest)]; exact Bool.false_ne_true)]
      exact ih fun l hl => h l (List.mem_cons_of_mem line hl)

/-- Claim C6 counterexample: the host probe does raise — a `/proc/cpuinfo`
consisting of the single line "model name" (no colon) makes
`line.split(':', 1)[1]` raise `IndexError`, which propagates. -/
theorem C6_counterexample : get_cpu_info (some [mnChars]) 4 = .error () := rfl

/-- Claim C6 (amended): for every CPU-identity file state — absent, or
present with content in which every line mentioning "model name" or
"vendor_id" also contains a ':' separator — the probe raises no error; a
field whose source line is missing holds "Unknown", and the core count is
the detected number of logical processors. (If a matching line has no
':', an `IndexError` propagates instead.) -/
theorem C6_graceful_probe (file : Option (List (List Char))) (n : ℕ)
    (h : ∀ line ∈ file.getD [],
      (containsSub mnChars line || containsSub vidChars line) = true →
        ((pySplit1 ':' line).2).isSome = true) :
    ∃ info, get_cpu_info file n = .ok info ∧ info.cores = n ∧
      ((∀ line ∈ file.getD [], containsSub mnChars line = false) →
        info.model = unknownChars) ∧
      ((∀ line ∈ file.getD [], containsSub vidChars line = false) →
        info.arch = unknownChars) := by
  cases file with
  | none =>
      exact ⟨⟨n, unknownChars, unknownChars⟩, rfl, rfl, fun _ => rfl, fun _ => rfl⟩
  | some ls =>
      obtain ⟨m, hm⟩ := findModel_ok ls fun l hl hc =>
        h l hl (by rw [hc, Bool.true_or])
      obtain ⟨v, hv⟩ := findVendor_ok ls fun l hl hc =>
        h l hl (by rw [hc, Bool.or_true])
      refine ⟨⟨n, m.getD unknownChars, (v.map archFromVendor).getD unknownChars⟩,
        ?_, rfl, ?_, ?_⟩
      · have hred : get_cpu_info (some ls) n =
            (match findModel ls with
             | .error e => .error e
             | .ok m =>
                 match findVendor ls with
                 | .error e => .error e
                 | .ok v =>
                     .ok ⟨n, m.getD unknownChars,
                          (v.map archFromVendor).getD unknownChars⟩) := rfl
        rw [hred, hm, hv]
      · intro hno
        have hnone : findModel ls = .ok none := findModel_not_found ls hno
        rw [hm] at hnone
        cases hnone
        rfl
      · intro hno
        have hnone : findVendor ls = .ok none := findVendor_not_found ls hno
        rw [hv] at hnone
        cases hnone
        rfl

/-- Witness for C6: a one-line file mentioning neither field, with two
detected cores. -/
theorem C6_graceful_probe_witness :
    ∃ info, get_cpu_info (some ["hello".toList]) 2 = .ok info ∧ info.cores = 2 ∧
      ((∀ line ∈ (some ["hello".toList] : Option (List (List Char))).getD [],
        containsSub mnChars line = false) → info.model = unknownChars) ∧
      ((∀ line ∈ (some ["hello".toList] : Option (List (List Char))).getD [],
        containsSub vidChars line = false) → info.arch = unknownChars) :=
  C6_graceful_probe (some ["hello".toList]) 2 (by decide)

end CpuStress
